import Mathlib

/-!
Verification development for the targeting/filtering engine of
medcat/utils/regression/targeting.py: a shallow embedding of the data
model (TargetInfo, TranslationLayer, the filter classes) and proofs of
the spec's claims about it.

Python dicts are embedded as association lists (first match wins, keys
unique in all concrete instances), Python sets as lists (iteration order
is the list order; the claims never depend on a particular order), and
Python exceptions as an explicit error value: a KeyError from a failed
dict lookup is the spec's NotFoundError, a ValueError from malformed
filter configuration is the spec's ConfigurationError.
-/

namespace Targeting

/-- Python exceptions that the embedded code can raise: a KeyError from a
dict lookup (the spec's NotFoundError) or a ValueError from malformed
configuration (the spec's ConfigurationError). -/
inductive PyError where
  | keyError
  | valueError
  deriving DecidableEq

deriving instance DecidableEq for Except

/-- The (cui, val) pair of targeting.TargetInfo (lines 15-32): the value
content of one target. Used for the data-flow claims, where only the
field values matter. -/
structure TargetInfo where
  cui : String
  val : String
  deriving DecidableEq

/-- A TargetInfo *instance* as a Python object: its two fields plus an
object identity. The source class defines no eq method of its own
(only init, str and repr), so Python compares instances by identity;
oid models that identity. -/
structure TargetInfoObj where
  oid : Nat
  cui : String
  val : String
  deriving DecidableEq

/-- Python default object equality for TargetInfo instances: with no eq
method defined on the class, a == b iff a and b are the same object. -/
def targetInfoObjEq (a b : TargetInfoObj) : Bool :=
  a.oid == b.oid

/-- The four lookup tables of targeting.TranslationLayer (lines 35-56),
dicts from str to set of str, embedded as association lists. -/
structure TranslationLayer where
  cui2names : List (String × List String)
  name2cuis : List (String × List String)
  cui2type_ids : List (String × List String)
  cui2children : List (String × List String)
  deriving DecidableEq

/-- TranslationLayer.__init__ (lines 51-59): stores the four dicts and
then, for every cui in cui2names that has no cui2children entry, adds an
empty children entry (appended in iteration order, as dict insertion
does). -/
def TranslationLayer.init (cui2names name2cuis cui2type_ids cui2children :
    List (String × List String)) : TranslationLayer :=
  { cui2names := cui2names
    name2cuis := name2cuis
    cui2type_ids := cui2type_ids
    cui2children := cui2names.foldl
      (fun acc p => if (List.lookup p.1 acc).isSome then acc else acc ++ [(p.1, [])])
      cui2children }

/-- TranslationLayer.targets_for (lines 61-63): one TargetInfo per name
under the cui. The generator's dict subscript raises KeyError when the
cui has no cui2names entry. -/
def targets_for (tl : TranslationLayer) (cui : String) :
    Except PyError (List TargetInfo) :=
  match List.lookup cui tl.cui2names with
  | none => .error .keyError
  | some names => .ok (names.map (fun n => ⟨cui, n⟩))

/-- TranslationLayer.all_targets (lines 65-74): every (cui, name) pair of
the cui2names table, in table order. -/
def all_targets (tl : TranslationLayer) : List TargetInfo :=
  tl.cui2names.flatMap (fun p => p.2.map (fun n => ⟨p.1, n⟩))

/-- TranslationLayer.has_child_of (lines 76-95) with the depth argument
re-indexed as a Nat fuel. The source recurses only under the guard
depth > 1, passing depth - 1, and otherwise only compares direct
children, so its behaviour depends on depth solely through
depth.toNat; fuel values 0 and 1 (depth ≤ 1) both mean direct
children only, and fuel f+2 additionally recurses into each child
with fuel f+1. -/
def has_child_of_fuel (tl : TranslationLayer) (found_cuis : List String) :
    Nat → String → Bool
  | 0, cui =>
    match List.lookup cui tl.cui2children with
    | none => false
    | some children => children.any (fun c => found_cuis.contains c)
  | 1, cui =>
    match List.lookup cui tl.cui2children with
    | none => false
    | some children => children.any (fun c => found_cuis.contains c)
  | f + 2, cui =>
    match List.lookup cui tl.cui2children with
    | none => false
    | some children =>
      children.any (fun c => found_cuis.contains c) ||
        children.any (fun c => has_child_of_fuel tl found_cuis (f + 1) c)

/-- TranslationLayer.has_child_of (lines 76-95): true iff some descendant
of cui within the depth bound is among found_cuis; false (no error) when
cui has no cui2children entry. -/
def has_child_of (tl : TranslationLayer) (found_cuis : List String)
    (cui : String) (depth : Int) : Bool :=
  has_child_of_fuel tl found_cuis depth.toNat cui

/-- TranslationLayer.has_parent_of (lines 97-117): for each found cui,
checks has_child_of with the singleton set of the target cui, i.e.
whether the target cui is a descendant of that found cui. -/
def has_parent_of (tl : TranslationLayer) (found_cuis : List String)
    (cui : String) (depth : Int) : Bool :=
  found_cuis.any (fun f => has_child_of tl [cui] f depth)

/-- The children set of a cui, empty when the cui has no entry. Spec-side
helper for stating descendant properties. -/
def childrenOf (tl : TranslationLayer) (c : String) : List String :=
  (List.lookup c tl.cui2children).getD []

/-- Spec-side notion: the concept ids reachable from c in between 1 and d
hops along the children table. -/
def descWithin (tl : TranslationLayer) : Nat → String → List String
  | 0, _ => []
  | d + 1, c => childrenOf tl c ++ (childrenOf tl c).flatMap (descWithin tl d)

/-- The three-level synthetic hierarchy of the spec's test property:
root → mid → leaf, one name each. -/
def tl3 : TranslationLayer := TranslationLayer.init
  [("root", ["r"]), ("mid", ["m"]), ("leaf", ["l"])]
  []
  []
  [("root", ["mid"]), ("mid", ["leaf"])]

/-- ASCII lower-casing of one character, as Python str.lower acts on the
ASCII strings used here. -/
def pyLowerChar (c : Char) : Char :=
  if 65 ≤ c.toNat ∧ c.toNat ≤ 90 then Char.ofNat (c.toNat + 32) else c

/-- ASCII upper-casing of one character, as Python str.upper acts on the
ASCII strings used here. -/
def pyUpperChar (c : Char) : Char :=
  if 97 ≤ c.toNat ∧ c.toNat ≤ 122 then Char.ofNat (c.toNat - 32) else c

/-- Python str.lower restricted to ASCII input. -/
def pyLower (s : String) : String := ⟨s.data.map pyLowerChar⟩

/-- Python str.upper restricted to ASCII input. -/
def pyUpper (s : String) : String := ⟨s.data.map pyUpperChar⟩

/-- targeting.FilterStrategy (lines 141-161). -/
inductive FilterStrategy where
  | ALL
  | ANY
  deriving DecidableEq

/-- The Python enum member name of a FilterStrategy. -/
def FilterStrategy.pyName : FilterStrategy → String
  | .ALL => "ALL"
  | .ANY => "ANY"

/-- Modelled from the spec: regression.utils.loosely_match_enum is not
part of the shown source; per the spec it matches a free-form string
against the enum member names case-insensitively and raises the
configuration error when nothing matches. -/
def FilterStrategy.match_str (s : String) : Except PyError FilterStrategy :=
  if pyUpper s = "ALL" then .ok .ALL
  else if pyUpper s = "ANY" then .ok .ANY
  else .error .valueError

/-- targeting.FilterType (lines 164-186). -/
inductive FilterType where
  | TYPE_ID
  | CUI
  | NAME
  | CUI_AND_CHILDREN
  deriving DecidableEq

/-- The Python enum member name of a FilterType. -/
def FilterType.pyName : FilterType → String
  | .TYPE_ID => "TYPE_ID"
  | .CUI => "CUI"
  | .NAME => "NAME"
  | .CUI_AND_CHILDREN => "CUI_AND_CHILDREN"

/-- Modelled from the spec: regression.utils.loosely_match_enum is not
part of the shown source; per the spec it matches a free-form string
against the enum member names case-insensitively and raises the
configuration error when nothing matches. -/
def FilterType.match_str (s : String) : Except PyError FilterType :=
  if pyUpper s = "TYPE_ID" then .ok .TYPE_ID
  else if pyUpper s = "CUI" then .ok .CUI
  else if pyUpper s = "NAME" then .ok .NAME
  else if pyUpper s = "CUI_AND_CHILDREN" then .ok .CUI_AND_CHILDREN
  else .error .valueError

/-- A filter object: either a plain targeting.TypedFilter (lines 189-193,
a type and a list of values) or a targeting.CUIWithChildFilter
(lines 355-358, a type, a delegate TypedFilter and a depth; its own
values field keeps the empty default of line 358). -/
inductive Filter where
  | base (type : FilterType) (values : List String)
  | withChild (type : FilterType) (delegate : Filter) (depth : Int)
  deriving DecidableEq

/-- The values field: a plain filter's list, and the overridden empty
default for the child variant (line 358). -/
def Filter.values : Filter → List String
  | .base _ vs => vs
  | .withChild _ _ _ => []

/-- The type field of a filter. -/
def Filter.kind : Filter → FilterType
  | .base t _ => t
  | .withChild t _ _ => t

/-- The type-id set of a cui, empty when the cui has no cui2type_ids
entry (the in-check of lines 215-218). -/
def typeIdsOf (tl : TranslationLayer) (cui : String) : List String :=
  (List.lookup cui tl.cui2type_ids).getD []

/-- TypedFilter.get_applicable_targets (lines 195-221): the base filter
semantics. The three successive if-blocks of the source are mutually
exclusive in the type, so exactly one consumes the input generator:
CUI and CUI_AND_CHILDREN keep targets whose cui is among the values,
NAME keeps targets whose val is among the values, and TYPE_ID emits a
target once per type id of its cui that is among the values (with the
empty set default when the cui has no type-id entry). -/
def typed_filter_apply (t : FilterType) (values : List String)
    (tl : TranslationLayer) (in_gen : List TargetInfo) : List TargetInfo :=
  match t with
  | .CUI | .CUI_AND_CHILDREN => in_gen.filter (fun ti => values.contains ti.cui)
  | .NAME => in_gen.filter (fun ti => values.contains ti.val)
  | .TYPE_ID => in_gen.flatMap (fun ti =>
      ((typeIdsOf tl ti.cui).filter (fun tid => values.contains tid)).map (fun _ => ti))

/-- The raw configuration value handed to TypedFilter.one_from_input: a
string, a list of strings, or a mapping holding a depth and a cui
entry (the two keys lines 248-249 read). -/
inductive FilterInput where
  | str (s : String)
  | list (l : List String)
  | dict (depth : Int) (cui : FilterInput)
  deriving DecidableEq

/-- TypedFilter.one_from_input (lines 223-257): loose-matches the target
type; a mapping value is only legal for CUI_AND_CHILDREN (else
ValueError) and builds a CUIWithChildFilter whose delegate is parsed
recursively from the mapping's cui entry with the *same* target type
string; a plain string is wrapped into a one-element list; a list is
taken as the values as given. -/
def one_from_input (target_type : String) (vals : FilterInput) :
    Except PyError Filter := do
  let t ← FilterType.match_str target_type
  match vals with
  | .dict depth cuiVals =>
    if t = .CUI_AND_CHILDREN then do
      let delegate ← one_from_input target_type cuiVals
      pure (.withChild t delegate depth)
    else
      .error .valueError
  | .str s => pure (.base t [s])
  | .list l => pure (.base t l)

/-- TypedFilter.to_dict (lines 259-265) and its CUIWithChildFilter
override (lines 380-386): a single-key dict, either the values list
under the type name, or the depth together with the delegate's values
under the type name. -/
def Filter.to_dict : Filter → List (String × FilterInput)
  | .base t vs => [(t.pyName, .list vs)]
  | .withChild t del depth => [(t.pyName, .dict depth (.list del.values))]

/-- TypedFilter.from_dict (lines 294-311): one filter per key-value pair
of the input dict, each parsed by one_from_input; a raised error
propagates. -/
def from_dict : List (String × FilterInput) → Except PyError (List Filter)
  | [] => .ok []
  | (k, v) :: rest => do
    let f ← one_from_input k v
    let fs ← from_dict rest
    pure (f :: fs)

/-- Python str() of a bool. -/
def pyStrBool : Bool → String
  | true => "True"
  | false => "False"

/-- targeting.FilterOptions (lines 314-318). -/
structure FilterOptions where
  strategy : FilterStrategy
  onlyprefnames : Bool
  deriving DecidableEq

/-- The dict consumed and produced by FilterOptions: an optional strategy
entry and an optional prefname-only entry, both string-valued. -/
structure OptionsSection where
  strategyEntry : Option String
  prefnameOnlyEntry : Option String
  deriving DecidableEq

/-- FilterOptions.to_dict (lines 320-326): the strategy member name and
the str() of the bool. -/
def FilterOptions.to_dict (o : FilterOptions) : OptionsSection :=
  ⟨some o.strategy.pyName, some (pyStrBool o.onlyprefnames)⟩

/-- FilterOptions.from_dict (lines 328-352): strategy loose-matched when
present (default ALL), prefname-only true iff the lower-cased entry is
the string true (default false). -/
def FilterOptions.from_dict (s : OptionsSection) : Except PyError FilterOptions := do
  let strat ← match s.strategyEntry with
    | some str => FilterStrategy.match_str str
    | none => pure .ALL
  let opn := match s.prefnameOnlyEntry with
    | some v => pyLower v = "true"
    | none => false
  pure ⟨strat, opn⟩

/-- The loop body of CUIWithChildFilter.get_children_of (lines 374-378)
over one children list: each child's own targets, then (when the depth
bound still allows a descent) the recursive expansion of that child.
A generator is embedded as the list of targets emitted before the
first uncaught exception, paired with that exception if one occurs:
targets_for raises KeyError on a child with no cui2names entry, and
the loop stops there, keeping what was already emitted. -/
def children_loop (tl : TranslationLayer)
    (descend : Option (String → List TargetInfo × Option PyError)) :
    List String → List TargetInfo × Option PyError
  | [] => ([], none)
  | child :: rest =>
    match targets_for tl child with
    | .error e => ([], some e)
    | .ok tis =>
      let sub := match descend with
        | some r => r child
        | none => ([], none)
      match sub.2 with
      | some e => (tis ++ sub.1, some e)
      | none =>
        match children_loop tl descend rest with
        | (out, err) => (tis ++ sub.1 ++ out, err)

/-- CUIWithChildFilter.get_children_of (lines 374-378) with the remaining
recursion budget depth - cur_depth re-indexed as a Nat fuel: the
source recurses into a child with cur_depth + 1 exactly when
cur_depth < depth, i.e. when the fuel is nonzero, and the recursive
call's remaining budget is one less. The dict subscript of the loop
header raises KeyError on a cui with no cui2children entry. -/
def get_children_fuel (tl : TranslationLayer) :
    Nat → String → List TargetInfo × Option PyError
  | 0, cui =>
    match List.lookup cui tl.cui2children with
    | none => ([], some .keyError)
    | some children => children_loop tl none children
  | f + 1, cui =>
    match List.lookup cui tl.cui2children with
    | none => ([], some .keyError)
    | some children =>
      children_loop tl (some (fun c => get_children_fuel tl f c)) children

/-- CUIWithChildFilter.get_children_of (lines 374-378): every target of
every descendant of cui from cur_depth up to the depth bound, with the
exception (if any) that interrupts the generator part-way. -/
def get_children_of (tl : TranslationLayer) (depth : Int) (cui : String)
    (cur_depth : Int) : List TargetInfo × Option PyError :=
  get_children_fuel tl (depth - cur_depth).toNat cui

/-- The loop body of CUIWithChildFilter.get_applicable_targets
(lines 370-372) over the already-filtered delegate output: each
accepted target followed by its children expansion with cur_depth 1;
an exception from the expansion interrupts the stream. -/
def emit_with_children (tl : TranslationLayer) (depth : Int) :
    List TargetInfo → List TargetInfo × Option PyError
  | [] => ([], none)
  | ti :: rest =>
    match get_children_of tl depth ti.cui 1 with
    | (ch, some e) => (ti :: ch, some e)
    | (ch, none) =>
      match emit_with_children tl depth rest with
      | (out, err) => (ti :: ch ++ out, err)

/-- get_applicable_targets with Python dynamic dispatch: a plain
TypedFilter runs the base semantics of lines 195-221 (which never
raises), a CUIWithChildFilter runs lines 360-372: the targets accepted
by the delegate, each followed by its descendants' targets, with an
exception from the expansion interrupting the stream before any later
delegate output (and a delegate exception surfacing after the items it
had already produced were processed). -/
def Filter.get_applicable_targets (f : Filter) (tl : TranslationLayer)
    (in_gen : List TargetInfo) : List TargetInfo × Option PyError :=
  match f with
  | .base t vs => (typed_filter_apply t vs tl in_gen, none)
  | .withChild _ del depth =>
    match del.get_applicable_targets tl in_gen with
    | (accepted, derr) =>
      match emit_with_children tl depth accepted with
      | (out, some e) => (out, some e)
      | (out, none) => (out, derr)

/-- The spec's two-level example hierarchy: A with children B and C, one
name each. -/
def tl5 : TranslationLayer := TranslationLayer.init
  [("A", ["a"]), ("B", ["b"]), ("C", ["c"])]
  []
  []
  [("A", ["B", "C"])]

/-- A three-level hierarchy A → B → D for the inclusive-depth part of the
children expansion claim. -/
def tlg : TranslationLayer := TranslationLayer.init
  [("A", ["a"]), ("B", ["b"]), ("D", ["d"])]
  []
  []
  [("A", ["B"]), ("B", ["D"])]

/-- A layer whose children table lists a cui (C) that is present neither
in the names table nor, after the constructor's defaulting, in the
children table. -/
def tl10 : TranslationLayer := TranslationLayer.init
  [("A", ["a"]), ("B", ["b"])]
  []
  []
  [("A", ["B", "C"])]

/-- The hierarchical filter the configuration machinery builds for
CUI_AND_CHILDREN with the given depth and single cui value. -/
def childFilter (depth : Int) (c : String) : Filter :=
  .withChild .CUI_AND_CHILDREN (.base .CUI_AND_CHILDREN [c]) depth

/-- The type-category table used for the TYPE_ID filter claim: concept X
carries the two categories T1 and T2; concept Y has no entry. -/
def tl7 : TranslationLayer := TranslationLayer.init
  [("X", ["x"]), ("Y", ["y"])]
  []
  [("X", ["T1", "T2"])]
  []

theorem descWithin_one (tl : TranslationLayer) (c : String) :
    descWithin tl 1 c = childrenOf tl c := by
  simp [descWithin]

theorem has_child_of_fuel_succ_iff (tl : TranslationLayer) (ids : List String) :
    ∀ (n : Nat) (c : String),
      has_child_of_fuel tl ids (n + 1) c = true ↔
        ∃ x ∈ descWithin tl (n + 1) c, x ∈ ids := by
  intro n
  induction n with
  | zero =>
    intro c
    cases h : List.lookup c tl.cui2children with
    | none => simp [has_child_of_fuel, h, descWithin, childrenOf]
    | some children =>
      simp [has_child_of_fuel, h, descWithin, childrenOf, List.any_eq_true,
        List.elem_iff]
  | succ n ih =>
    intro c
    cases h : List.lookup c tl.cui2children with
    | none => simp [has_child_of_fuel, h, descWithin, childrenOf]
    | some children =>
      show has_child_of_fuel tl ids (n + 2) c = true ↔ _
      simp only [has_child_of_fuel, h, descWithin, childrenOf, Option.getD_some,
        Bool.or_eq_true, List.any_eq_true, List.elem_iff, ih, List.mem_append,
        List.mem_flatMap]
      constructor
      · rintro (⟨x, hx, hids⟩ | ⟨y, hy, x, hx, hids⟩)
        · exact ⟨x, Or.inl hx, hids⟩
        · exact ⟨x, Or.inr ⟨y, hy, hx⟩, hids⟩
      · rintro ⟨x, hx | ⟨y, hy, hx⟩, hids⟩
        · exact Or.inl ⟨x, hx, hids⟩
        · exact Or.inr ⟨y, hy, x, hx, hids⟩

theorem has_child_of_fuel_none (tl : TranslationLayer) (ids : List String)
    (c : String) (h : List.lookup c tl.cui2children = none) :
    ∀ fuel, has_child_of_fuel tl ids fuel c = false := by
  intro fuel
  match fuel with
  | 0 => simp [has_child_of_fuel, h]
  | 1 => simp [has_child_of_fuel, h]
  | f + 2 => simp [has_child_of_fuel, h]

/-- C6: for every children table, candidate set ids and concept c,
has_child_of at depth 1 is true iff some direct child of c is among
ids; at depth 2 it is true iff some child or grandchild of c is among
ids; and for a concept with no children entry it returns false (no
error) at every depth. -/
theorem hasChildOf_depths_and_missing :
    (∀ (tl : TranslationLayer) (ids : List String) (c : String),
      (has_child_of tl ids c 1 = true ↔ ∃ x ∈ childrenOf tl c, x ∈ ids)) ∧
    (∀ (tl : TranslationLayer) (ids : List String) (c : String),
      (has_child_of tl ids c 2 = true ↔
        ∃ x, (x ∈ childrenOf tl c ∨ ∃ y ∈ childrenOf tl c, x ∈ childrenOf tl y)
          ∧ x ∈ ids)) ∧
    (∀ (tl : TranslationLayer) (ids : List String) (c : String) (d : Int),
      List.lookup c tl.cui2children = none → has_child_of tl ids c d = false) := by
  refine ⟨?_, ?_, ?_⟩
  · intro tl ids c
    have h := has_child_of_fuel_succ_iff tl ids 0 c
    rw [descWithin_one] at h
    exact h
  · intro tl ids c
    have h := has_child_of_fuel_succ_iff tl ids 1 c
    show has_child_of_fuel tl ids 2 c = true ↔ _
    rw [h]
    simp only [descWithin, List.mem_append, List.mem_flatMap, List.flatMap_nil,
      List.append_nil, List.not_mem_nil, exists_false, and_false, or_false,
      exists_prop]
  · intro tl ids c d h
    exact has_child_of_fuel_none tl ids c h d.toNat

theorem hasChildOf_depths_and_missing_witness :
    has_child_of tl3 ["mid"] "nowhere" 5 = false :=
  hasChildOf_depths_and_missing.2.2 tl3 ["mid"] "nowhere" 5 (by decide)

/-- C1 counterexample: in the three-level hierarchy root → mid → leaf,
has_parent_of with candidate set containing the leaf and concept root at
depth 2 returns false, not true as the claim states: the implementation
asks whether root is a descendant of leaf. -/
theorem hasParentOf_leaf_root_counterexample :
    has_parent_of tl3 ["leaf"] "root" 2 = false := by decide

/-- C1 amended: has_parent_of(candidateIds, conceptId, depth) is true iff
some id in candidateIds has conceptId as a descendant within depth
hops (for positive depth), so in a three-level hierarchy
root → mid → leaf it is the call with candidate set containing the
root and concept leaf at depth 2 that returns true. -/
theorem hasParentOf_descendant_iff :
    (∀ (tl : TranslationLayer) (ids : List String) (c : String) (d : Int),
      1 ≤ d →
      (has_parent_of tl ids c d = true ↔
        ∃ f ∈ ids, c ∈ descWithin tl d.toNat f)) ∧
    has_parent_of tl3 ["root"] "leaf" 2 = true := by
  constructor
  · intro tl ids c d hd
    obtain ⟨n, hn⟩ : ∃ n, d.toNat = n + 1 := by
      refine ⟨d.toNat - 1, ?_⟩
      omega
    simp only [has_parent_of, List.any_eq_true, List.elem_iff, has_child_of, hn]
    constructor
    · rintro ⟨f, hf, hc⟩
      obtain ⟨x, hx, hxc⟩ := (has_child_of_fuel_succ_iff tl [c] n f).1 hc
      simp only [List.mem_singleton] at hxc
      exact ⟨f, hf, hxc ▸ hx⟩
    · rintro ⟨f, hf, hc⟩
      refine ⟨f, hf, (has_child_of_fuel_succ_iff tl [c] n f).2 ?_⟩
      exact ⟨c, hc, List.mem_singleton.2 rfl⟩
  · decide

theorem hasParentOf_descendant_iff_witness :
    has_parent_of tl3 ["root"] "leaf" 2 = true ↔
      ∃ f ∈ ["root"], "leaf" ∈ descWithin tl3 (2 : Int).toNat f :=
  hasParentOf_descendant_iff.1 tl3 ["root"] "leaf" 2 (by decide)

theorem one_from_input_dict_unfold (d : Int) (v : FilterInput) :
    one_from_input "CUI_AND_CHILDREN" (.dict d v) =
      (one_from_input "CUI_AND_CHILDREN" v).bind
        (fun del => .ok (.withChild .CUI_AND_CHILDREN del d)) := rfl

theorem one_from_input_str_unfold (tt : String) (s : String) :
    one_from_input tt (.str s) =
      (FilterType.match_str tt).bind (fun t => .ok (.base t [s])) := rfl

theorem one_from_input_list_unfold (tt : String) (l : List String) :
    one_from_input tt (.list l) =
      (FilterType.match_str tt).bind (fun t => .ok (.base t l)) := rfl

theorem one_from_input_dict_unfold_general (tt : String) (d : Int)
    (v : FilterInput) :
    one_from_input tt (.dict d v) =
      (FilterType.match_str tt).bind (fun t =>
        if t = .CUI_AND_CHILDREN then
          (one_from_input tt v).bind (fun del => .ok (.withChild t del d))
        else .error .valueError) := rfl

/-- C2 counterexample: parsing a CUI_AND_CHILDREN mapping constructs a
hierarchical filter with no error, and its delegate's kind is
CUI_AND_CHILDREN (the parent's own target type), not BY_CONCEPT_ID:
no ConfigurationError is raised over the delegate's kind. -/
theorem hierarchicalDelegateKind_counterexample :
    one_from_input "CUI_AND_CHILDREN" (.dict 1 (.str "C01")) =
      .ok (.withChild .CUI_AND_CHILDREN (.base .CUI_AND_CHILDREN ["C01"]) 1) ∧
    Filter.kind (.base .CUI_AND_CHILDREN ["C01"]) ≠ .CUI := by
  exact ⟨by decide, by decide⟩

/-- C2 amended: constructing a hierarchical filter performs no
delegate-kind validation; every hierarchical filter one_from_input
builds from a mapping succeeds and its delegate's kind is
CUI_AND_CHILDREN (inherited from the parent's target type string),
never BY_CONCEPT_ID. -/
theorem hierarchicalDelegateKind :
    ∀ (v : FilterInput) (d : Int), ∃ del : Filter,
      one_from_input "CUI_AND_CHILDREN" (.dict d v) =
        .ok (.withChild .CUI_AND_CHILDREN del d) ∧
      del.kind = .CUI_AND_CHILDREN := by
  intro v
  induction v with
  | str s =>
    intro d
    exact ⟨.base .CUI_AND_CHILDREN [s], rfl, rfl⟩
  | list l =>
    intro d
    exact ⟨.base .CUI_AND_CHILDREN l, rfl, rfl⟩
  | dict d2 v2 ih =>
    intro d
    obtain ⟨del, hdel, hkind⟩ := ih d2
    refine ⟨.withChild .CUI_AND_CHILDREN del d2, ?_, rfl⟩
    rw [one_from_input_dict_unfold, hdel]
    rfl

/-- C3 counterexample: two TargetInfo instances with equal cui and val
fields but distinct identities are not equal, because the class
defines no eq method and Python compares by identity. -/
theorem targetInfoEq_counterexample :
    targetInfoObjEq ⟨0, "C1", "name1"⟩ ⟨1, "C1", "name1"⟩ = false ∧
    (⟨0, "C1", "name1"⟩ : TargetInfoObj).cui = (⟨1, "C1", "name1"⟩ : TargetInfoObj).cui ∧
    (⟨0, "C1", "name1"⟩ : TargetInfoObj).val = (⟨1, "C1", "name1"⟩ : TargetInfoObj).val := by
  exact ⟨by decide, rfl, rfl⟩

/-- C3 amended: two TargetInfo instances are equal iff they are the same
object; equality of the concept-id and name fields alone does not make
two instances equal, since TargetInfo defines no eq method and Python
falls back to identity comparison. -/
theorem targetInfoEq_identity :
    ∀ a b : TargetInfoObj, targetInfoObjEq a b = true ↔ a.oid = b.oid := by
  intro a b
  simp [targetInfoObjEq]

/-- C9: one_from_input wraps a string value as a one-element values list,
takes a list value as the values as given (both modulo the loose match
of the target type string, whose failure propagates), and fails with
the configuration ValueError for a mapping value whenever the target
type resolves to anything but CUI_AND_CHILDREN, before looking at the
mapping at all. -/
theorem oneFromInput_values_shapes :
    (∀ (tt : String) (s : String),
      one_from_input tt (.str s) =
        (FilterType.match_str tt).map (fun t => .base t [s])) ∧
    (∀ (tt : String) (l : List String),
      one_from_input tt (.list l) =
        (FilterType.match_str tt).map (fun t => .base t l)) ∧
    (∀ (tt : String) (d : Int) (v : FilterInput) (t : FilterType),
      FilterType.match_str tt = .ok t → t ≠ .CUI_AND_CHILDREN →
      one_from_input tt (.dict d v) = .error .valueError) := by
  refine ⟨?_, ?_, ?_⟩
  · intro tt s
    rw [one_from_input_str_unfold]
    cases h : FilterType.match_str tt with
    | error e => simp [h, Except.map, Except.bind]
    | ok t => simp [h, Except.map, Except.bind]
  · intro tt l
    rw [one_from_input_list_unfold]
    cases h : FilterType.match_str tt with
    | error e => simp [h, Except.map, Except.bind]
    | ok t => simp [h, Except.map, Except.bind]
  · intro tt d v t h ht
    rw [one_from_input_dict_unfold_general, h]
    simp [Except.bind, ht]

theorem oneFromInput_values_shapes_witness :
    one_from_input "CUI" (.dict 1 (.str "X")) = .error .valueError :=
  oneFromInput_values_shapes.2.2 "CUI" 1 (.str "X") .CUI (by decide) (by decide)

/-- C4: serialising and re-parsing reconstructs an equivalent filter: a
plain filter round-trips to itself (same kind and values), a
hierarchical filter round-trips to a hierarchical filter with the same
kind, the same depth and the same delegate values, and FilterOptions
round-trips to the same strategy and onlyprefnames. -/
theorem roundTrip_filters_and_options :
    (∀ (t : FilterType) (vs : List String),
      from_dict (Filter.to_dict (.base t vs)) = .ok [.base t vs]) ∧
    (∀ (del : Filter) (d : Int),
      from_dict (Filter.to_dict (.withChild .CUI_AND_CHILDREN del d)) =
        .ok [.withChild .CUI_AND_CHILDREN (.base .CUI_AND_CHILDREN del.values) d]) ∧
    (∀ o : FilterOptions,
      FilterOptions.from_dict (FilterOptions.to_dict o) = .ok o) := by
  refine ⟨?_, ?_, ?_⟩
  · intro t vs
    cases t <;> rfl
  · intro del d
    rfl
  · intro o
    obtain ⟨st, b⟩ := o
    cases st <;> cases b <;> rfl

/-- C5: the CUI_AND_CHILDREN filter with depth 1 and values [A], applied
to all targets of the hierarchy A → [B, C] with names a, b, c, yields
exactly the three targets (A, a), (B, b), (C, c) and no error; and the
depth bound is inclusive: on the hierarchy A → B → D, depth 1 adds
only the direct child's target while depth 2 additionally adds the
grandchild's target. -/
theorem cuiWithChildren_expansion :
    ((Filter.get_applicable_targets (childFilter 1 "A") tl5 (all_targets tl5)).1.Perm
        [⟨"A", "a"⟩, ⟨"B", "b"⟩, ⟨"C", "c"⟩] ∧
      (Filter.get_applicable_targets (childFilter 1 "A") tl5 (all_targets tl5)).2
        = none) ∧
    Filter.get_applicable_targets (childFilter 1 "A") tlg (all_targets tlg) =
      ([⟨"A", "a"⟩, ⟨"B", "b"⟩], none) ∧
    Filter.get_applicable_targets (childFilter 2 "A") tlg (all_targets tlg) =
      ([⟨"A", "a"⟩, ⟨"B", "b"⟩, ⟨"D", "d"⟩], none) := by
  exact ⟨⟨by decide, by decide⟩, by decide, by decide⟩

/-- C7: the TYPE_ID filter emits each passing target once per type
category of its concept that is among the filter's values (the output
is the input with each target replicated by its matching-category
count), a concept with no type-category entry contributes nothing (no
error), and a target whose concept carries two requested categories is
emitted twice. -/
theorem typeIdFilter_per_category :
    (∀ (tl : TranslationLayer) (vs : List String) (g : List TargetInfo),
      Filter.get_applicable_targets (.base .TYPE_ID vs) tl g =
        (g.flatMap (fun ti =>
          List.replicate
            ((typeIdsOf tl ti.cui).filter (fun tid => vs.contains tid)).length ti),
          none)) ∧
    (∀ (tl : TranslationLayer) (vs : List String) (c v : String),
      List.lookup c tl.cui2type_ids = none →
      Filter.get_applicable_targets (.base .TYPE_ID vs) tl [⟨c, v⟩] = ([], none)) ∧
    Filter.get_applicable_targets (.base .TYPE_ID ["T1", "T2"]) tl7 [⟨"X", "x"⟩] =
      ([⟨"X", "x"⟩, ⟨"X", "x"⟩], none) := by
  refine ⟨?_, ?_, by decide⟩
  · intro tl vs g
    simp [Filter.get_applicable_targets, typed_filter_apply, List.map_const']
  · intro tl vs c v h
    simp [Filter.get_applicable_targets, typed_filter_apply, typeIdsOf, h]

theorem typeIdFilter_per_category_witness :
    Filter.get_applicable_targets (.base .TYPE_ID ["T1"]) tl7 [⟨"Y", "q"⟩]
      = ([], none) :=
  typeIdFilter_per_category.2.1 tl7 ["T1"] "Y" "q" (by decide)

/-- C8: targets_for yields exactly one TargetInfo per name registered
under the concept-id when the concept-id is in the names table, and
raises the propagated lookup failure (KeyError, the spec's
NotFoundError) when it is absent, yielding nothing. -/
theorem targetsFor_names_or_error :
    (∀ (tl : TranslationLayer) (c : String) (ns : List String),
      List.lookup c tl.cui2names = some ns →
        targets_for tl c = .ok (ns.map (fun n => (⟨c, n⟩ : TargetInfo)))) ∧
    (∀ (tl : TranslationLayer) (c : String),
      List.lookup c tl.cui2names = none →
        targets_for tl c = .error .keyError) := by
  constructor
  · intro tl c ns h
    simp [targets_for, h]
  · intro tl c h
    simp [targets_for, h]

theorem targetsFor_names_or_error_witness :
    targets_for tl5 "A" = .ok [⟨"A", "a"⟩] ∧
    targets_for tl5 "Z" = .error .keyError :=
  ⟨targetsFor_names_or_error.1 tl5 "A" ["a"] (by decide),
   targetsFor_names_or_error.2 tl5 "Z" (by decide)⟩

/-- C10: in the layer built from names {A, B} and children {A → [B, C]},
the constructor's defaulting adds an empty children entry for B (a
names-table key) but none for C (absent from the names table), and
expanding A's children to depth 2 emits B's target and then raises the
raw KeyError for C instead of skipping it, interrupting the sequence
part-way. -/
theorem childrenExpansion_raises_midstream :
    List.lookup "B" tl10.cui2children = some [] ∧
    List.lookup "C" tl10.cui2children = none ∧
    List.lookup "C" tl10.cui2names = none ∧
    get_children_of tl10 2 "A" 1 = ([⟨"B", "b"⟩], some .keyError) := by
  exact ⟨by decide, by decide, by decide, by decide⟩

end Targeting
